import Mathlib

/-!
Verification development for the bistro-boss-server Settlement and Analytics
engine. The definitions below are a shallow embedding of the handlers in
src/index.js (the primary revision of the server); src/unnamed/part_000 and
src/unnamed/part_001 are earlier revisions of the same file and are modelled
separately only where they differ in a way a claim depends on (the
create-checkout-session rounding). JavaScript numbers are modelled as exact
rationals, MongoDB documents as Lean structures, and each collection of the
bistroDb database as a list field of the DB structure.
-/

namespace BistroBoss

/-- Hex digit test, used to model which strings the mongodb ObjectId
constructor accepts. -/
def isHexDigitChar (c : Char) : Bool :=
  (('0' ≤ c && c ≤ '9') || ('a' ≤ c && c ≤ 'f') || ('A' ≤ c && c ≤ 'F'))

/-- Models the precondition of new ObjectId(String(id)) at index.js:204: the
constructor succeeds exactly on 24-character hex strings and throws a
BSONError otherwise. Identifiers are modelled in canonical form, so two
identifiers are equal exactly when the strings are equal. -/
def isValidObjectIdString (s : String) : Bool :=
  s.length == 24 && s.data.all isHexDigitChar

/-- One document of the menu collections (id, name, category, price), as read
by the order-stats aggregation and the menu CRUD routes. -/
structure MenuItem where
  id : String
  name : String
  category : String
  price : ℚ
deriving DecidableEq

/-- One document of the carts collection. Only the identifier and the owning
email are relevant to the claims. -/
structure CartEntry where
  id : String
  email : String
deriving DecidableEq

/-- One document of the users collection. The role field is optional because
user documents need not carry a role; verifyAdmin at index.js:70-79 compares
user?.role with the string admin. -/
structure User where
  email : String
  role : Option String
deriving DecidableEq

/-- The JavaScript value found at payment.cartIds in the request body of
POST /payments: absent, present but not an array, or an array of strings
(elements are modelled after the String(id) conversion at index.js:204). -/
inductive CartIdsField where
  | missing : CartIdsField
  | nonArray : CartIdsField
  | arr : List String → CartIdsField
deriving DecidableEq

/-- The request body of POST /payments, which index.js:199 inserts verbatim
into the payments collection, so this is also the shape of a stored payment
document. The menuItems field is the list the order-stats lookup at
index.js:264 reads (the spec surface calls it menuItemIds, but the field name
of the stored document is whatever the client sent and the pipeline reads
menuItems). -/
structure PaymentBody where
  email : String
  price : ℚ
  cartIds : CartIdsField
  menuItems : List String
deriving DecidableEq

/-- The bistroDb database. index.js:55 binds the menu CRUD handle to the
collection named menus, while the order-stats lookup at index.js:263 reads
the collection named menu; both collections are modelled, as distinct
fields. -/
structure DB where
  menus : List MenuItem
  menu : List MenuItem
  carts : List CartEntry
  users : List User
  payments : List PaymentBody
deriving DecidableEq

/-- Models the guard at index.js:188-196: payment.cartIds passes exactly when
it is an array with at least one element. A missing or otherwise falsy value
fails the first disjunct, a non-array value fails Array.isArray, and an empty
array fails the length check; all three produce the same 400 response. -/
def validCartIds : CartIdsField → Option (List String)
  | .arr ids => if ids.isEmpty then none else some ids
  | _ => none

/-- Outcome of POST /payments: the 200 response carrying paymentResult
(abstracted as the inserted document) and deleteResult.deletedCount, the 400
response of the cartIds guard, or the 500 response of the catch block. -/
inductive SettleResponse where
  | ok : PaymentBody → ℕ → SettleResponse
  | badRequest : SettleResponse
  | serverError : SettleResponse
deriving DecidableEq

/-- HTTP status code of each settle outcome (index.js:216, :193, :222). -/
def settleStatus : SettleResponse → ℕ
  | .ok _ _ => 200
  | .badRequest => 400
  | .serverError => 500

/-- Shallow embedding of the POST /payments handler, index.js:183-225.
The two Bool arguments model a store failure thrown by insertOne and by
deleteMany respectively; any throw is caught by the surrounding try-catch and
becomes a 500 response, with every store effect already applied left in
place. The steps in order: the cartIds guard, insertOne of the body, the
construction of the delete query (new ObjectId throws on an invalid id
string, after the insert and before any deletion), then deleteMany, which
removes exactly the cart documents whose id is a member of cartIds and
reports how many it removed. -/
def settle (db : DB) (insertFails deleteFails : Bool) (payment : PaymentBody) :
    SettleResponse × DB :=
  match validCartIds payment.cartIds with
  | none => (.badRequest, db)
  | some ids =>
    if insertFails then (.serverError, db)
    else
      let db1 : DB := { db with payments := db.payments ++ [payment] }
      if ids.all isValidObjectIdString then
        if deleteFails then (.serverError, db1)
        else
          (.ok payment ((db1.carts.filter (fun e => ids.contains e.id)).length),
           { db1 with carts := db1.carts.filter (fun e => !(ids.contains e.id)) })
      else (.serverError, db1)

/-- A bearer credential as seen by the jwt verification callback: either a
token that verifies to a decoded payload with an email, or one jwt.verify
rejects. -/
inductive Credential where
  | valid : String → Credential
  | invalid : Credential
deriving DecidableEq

/-- Models verifyToken, index.js:14-30: a missing authorization header or a
token jwt.verify rejects yields none (the 401 response); otherwise the
decoded email is made available to the handler. -/
def verifyTokenEmail : Option Credential → Option String
  | none => none
  | some .invalid => none
  | some (.valid email) => some email

/-- The POST /payments route as registered at index.js:183: no verifyToken
and no verifyAdmin middleware appear in the chain, so the handler runs on
every request and the credential is never consulted. -/
def settleRoute (db : DB) (_auth : Option Credential) (insertFails deleteFails : Bool)
    (payment : PaymentBody) : SettleResponse × DB :=
  settle db insertFails deleteFails payment

/-- The reduce at index.js:244-247: revenue is folded over every stored
payment document starting from 0. -/
def adminStatsRevenue (payments : List PaymentBody) : ℚ :=
  payments.foldl (fun total payment => total + payment.price) 0

/-- Outcome of GET /admin-stats: the stats object, the 401 of verifyToken, or
the 403 of verifyAdmin. -/
inductive StatsResponse where
  | ok : ℚ → ℕ → ℕ → ℕ → StatsResponse
  | unauthorized : StatsResponse
  | forbidden : StatsResponse
deriving DecidableEq

/-- Shallow embedding of GET /admin-stats, index.js:239-255, including its
middleware chain verifyToken then verifyAdmin (index.js:70-79: a missing user
document or a role other than admin yields 403). The three counts model
estimatedDocumentCount on the users, menus and payments handles. -/
def adminStats (db : DB) (auth : Option Credential) : StatsResponse :=
  match verifyTokenEmail auth with
  | none => .unauthorized
  | some email =>
    match db.users.find? (fun u => u.email == email) with
    | none => .forbidden
    | some u =>
      if u.role == some "admin" then
        .ok (adminStatsRevenue db.payments) db.payments.length db.users.length db.menus.length
      else .forbidden

/-- JavaScript parseInt applied to a number, as at index.js:105: the decimal
representation is truncated at the point, that is the value is rounded toward
zero. -/
def jsParseInt (q : ℚ) : ℤ :=
  if 0 ≤ q then ⌊q⌋ else ⌈q⌉

/-- JavaScript Math.round: half-way values round toward positive infinity. -/
def jsMathRound (q : ℚ) : ℤ :=
  ⌊q + 1 / 2⌋

/-- The minor-unit amount computed by POST /create-checkout-session in
index.js:105: parseInt(price * 100). -/
def createCheckoutAmount (price : ℚ) : ℤ :=
  jsParseInt (price * 100)

/-- The minor-unit amount computed by the same endpoint in the part_000
revision, line 107: Math.round(price * 100). -/
def createCheckoutAmountRounded (price : ℚ) : ℤ :=
  jsMathRound (price * 100)

/-- One element of the GET /order-stats response. -/
structure CategorySummary where
  category : String
  quantity : ℕ
  revenue : ℚ
deriving DecidableEq

/-- The lookup stage of the order-stats pipeline, index.js:261-268: for one
payment document, the as array receives every document of the foreign menu
collection whose id is a member of the menuItems array. Each matching foreign
document appears exactly once, however many times the array references
it. -/
def lookupMenuItems (menu : List MenuItem) (p : PaymentBody) : List MenuItem :=
  menu.filter (fun m => p.menuItems.contains m.id)

/-- The unwind stage, index.js:269-271: one row per element of each looked-up
array; documents whose array is empty disappear. Rows are represented by the
joined menu document, the only part the later stages read. -/
def unwoundRows (db : DB) : List MenuItem :=
  db.payments.flatMap (lookupMenuItems db.menu)

/-- The group accumulators of index.js:272-278 for one category: quantity is
the number of rows of that category and revenue the sum of their prices. -/
def mkSummary (rows : List MenuItem) (c : String) : CategorySummary :=
  { category := c,
    quantity := (rows.filter (fun m => m.category == c)).length,
    revenue := ((rows.filter (fun m => m.category == c)).map (fun m => m.price)).sum }

/-- Shallow embedding of the GET /order-stats aggregation, index.js:258-291:
lookup against the collection named menu, unwind, group by category, project.
The group stage emits one output document per distinct key of the surviving
rows; its output order is unspecified, and this model lists categories in
first-occurrence order. -/
def orderStats (db : DB) : List CategorySummary :=
  (((unwoundRows db).map (fun m => m.category)).dedup).map (mkSummary (unwoundRows db))

/-- Quantity reported for category c, 0 when no summary of that category is
emitted. -/
def quantityOf (l : List CategorySummary) (c : String) : ℕ :=
  match l.find? (fun s => s.category == c) with
  | some s => s.quantity
  | none => 0

/-- Revenue reported for category c, 0 when no summary of that category is
emitted. -/
def revenueOf (l : List CategorySummary) (c : String) : ℚ :=
  match l.find? (fun s => s.category == c) with
  | some s => s.revenue
  | none => 0

/-- Rows of the category breakdown as the specification words them: every
payment record expands to one row per referenced element, in reference-list
order, and a row survives exactly when some catalog item carries its
identifier. Stated for comparison with unwoundRows, the translation of the
pipeline itself. -/
def specRows (db : DB) : List MenuItem :=
  db.payments.flatMap (fun p => p.menuItems.filterMap (fun i => db.menu.find? (fun m => m.id == i)))

/-- Quantity for category c under the specification wording of the rows. -/
def specQuantity (db : DB) (c : String) : ℕ :=
  ((specRows db).filter (fun m => m.category == c)).length

/-- Revenue for category c under the specification wording of the rows. -/
def specRevenue (db : DB) (c : String) : ℚ :=
  (((specRows db).filter (fun m => m.category == c)).map (fun m => m.price)).sum

/-- Folding addition of prices over a list distributes over the initial
accumulator. -/
lemma foldl_add_price (l : List PaymentBody) (init : ℚ) :
    l.foldl (fun total payment => total + payment.price) init
      = init + (l.map (fun payment => payment.price)).sum := by
  induction l generalizing init with
  | nil => simp
  | cons a tl ih => simp [ih, add_assoc]

/-- C1: a call to POST /payments whose cartIds is missing, empty, or not a
list is answered with the 400 invalid-request response, no payment document
is inserted, and the cart collection is unchanged (the whole database is
returned as it was). -/
theorem settle_invalidCartIds_rejected (db : DB) (iF dF : Bool) (p : PaymentBody)
    (h : validCartIds p.cartIds = none) :
    settle db iF dF p = (.badRequest, db) ∧ settleStatus (settle db iF dF p).fst = 400 := by
  simp [settle, h, settleStatus]

/-- Witness for C1 at two concrete inputs: a body with no cartIds field and a
body whose cartIds is the empty array, against a database holding one cart
entry. -/
theorem settle_invalidCartIds_rejected_witness :
    (settle ⟨[], [], [⟨"c", "u"⟩], [], []⟩ false false ⟨"u", 5, .missing, []⟩
        = (.badRequest, ⟨[], [], [⟨"c", "u"⟩], [], []⟩) ∧
      settleStatus (settle ⟨[], [], [⟨"c", "u"⟩], [], []⟩ false false
        ⟨"u", 5, .missing, []⟩).fst = 400) ∧
    (settle ⟨[], [], [⟨"c", "u"⟩], [], []⟩ false false ⟨"u", 5, .arr [], []⟩
        = (.badRequest, ⟨[], [], [⟨"c", "u"⟩], [], []⟩) ∧
      settleStatus (settle ⟨[], [], [⟨"c", "u"⟩], [], []⟩ false false
        ⟨"u", 5, .arr [], []⟩).fst = 400) :=
  ⟨settle_invalidCartIds_rejected _ false false _ rfl,
   settle_invalidCartIds_rejected _ false false _ rfl⟩

/-- C2 counterexample: at price 12.345 the checkout handler of index.js
computes parseInt(12.345 * 100) = 1234, not the 1235 the claim requires of
round-half-to-nearest. -/
theorem checkout_half_cent_counterexample :
    createCheckoutAmount (12345 / 1000) = 1234 ∧
    createCheckoutAmount (12345 / 1000) ≠ 1235 := by
  have h : createCheckoutAmount (12345 / 1000) = 1234 := by
    unfold createCheckoutAmount jsParseInt
    rw [if_pos (by norm_num : (0 : ℚ) ≤ 12345 / 1000 * 100)]
    exact Int.floor_eq_iff.mpr (by norm_num)
  exact ⟨h, by rw [h]; decide⟩

/-- C2 amended: for a non-negative price, index.js converts price to minor
units by truncation toward zero of price * 100 (which on non-negative input
is the floor), while the part_000 revision of the endpoint rounds half up. -/
theorem checkout_amount_truncates (price : ℚ) (h : 0 ≤ price) :
    createCheckoutAmount price = ⌊price * 100⌋ ∧
    createCheckoutAmountRounded price = ⌊price * 100 + 1 / 2⌋ := by
  refine ⟨?_, rfl⟩
  unfold createCheckoutAmount jsParseInt
  rw [if_pos (by positivity : (0 : ℚ) ≤ price * 100)]

/-- Witness for C2 amended at price 12.345. -/
theorem checkout_amount_truncates_witness :
    (0 : ℚ) ≤ 12345 / 1000 ∧
    (createCheckoutAmount (12345 / 1000) = ⌊(12345 / 1000 : ℚ) * 100⌋ ∧
     createCheckoutAmountRounded (12345 / 1000) = ⌊(12345 / 1000 : ℚ) * 100 + 1 / 2⌋) :=
  ⟨by norm_num, checkout_amount_truncates (12345 / 1000) (by norm_num)⟩

/-- C3: the revenue reported by GET /admin-stats is the exact sum of the
price field over every stored payment document, and it is 0 on the empty
payment collection. -/
theorem adminStats_revenue_exact (payments : List PaymentBody) :
    adminStatsRevenue payments = (payments.map (fun payment => payment.price)).sum ∧
    adminStatsRevenue [] = 0 := by
  refine ⟨?_, rfl⟩
  unfold adminStatsRevenue
  rw [foldl_add_price, zero_add]

/-- Entries surviving the deletion pass never match the delete query again. -/
lemma filter_members_of_filter_nonMembers (l : List String) (cs : List CartEntry) :
    (cs.filter (fun e => !(l.contains e.id))).filter (fun e => l.contains e.id) = [] := by
  rw [List.filter_filter]
  simp

/-- C6: the payment insert happens before the cart deletion. When the insert
throws, the handler answers 500 with the database untouched, so no cart entry
is deleted; when the deletion step fails after a successful insert, the
inserted payment document remains and the carts are unchanged, with no
rollback. -/
theorem settle_insert_happensBefore_delete (db : DB) (p : PaymentBody) (dF : Bool)
    (l : List String) (h : validCartIds p.cartIds = some l) :
    settle db true dF p = (.serverError, db) ∧
    settle db false true p = (.serverError, { db with payments := db.payments ++ [p] }) := by
  constructor
  · simp [settle, h]
  · by_cases hv : l.all isValidObjectIdString <;> simp [settle, h, hv]

/-- Witness for C6 on a database holding one cart entry referenced by the
payment body. -/
theorem settle_insert_happensBefore_delete_witness :
    settle ⟨[], [], [⟨"aaaaaaaaaaaaaaaaaaaaaaaa", "u"⟩], [], []⟩ true false
        ⟨"u", 5, .arr ["aaaaaaaaaaaaaaaaaaaaaaaa"], ["m"]⟩
      = (.serverError, ⟨[], [], [⟨"aaaaaaaaaaaaaaaaaaaaaaaa", "u"⟩], [], []⟩) ∧
    settle ⟨[], [], [⟨"aaaaaaaaaaaaaaaaaaaaaaaa", "u"⟩], [], []⟩ false true
        ⟨"u", 5, .arr ["aaaaaaaaaaaaaaaaaaaaaaaa"], ["m"]⟩
      = (.serverError,
         { (⟨[], [], [⟨"aaaaaaaaaaaaaaaaaaaaaaaa", "u"⟩], [], []⟩ : DB) with
             payments := [] ++ [⟨"u", 5, .arr ["aaaaaaaaaaaaaaaaaaaaaaaa"], ["m"]⟩] }) :=
  settle_insert_happensBefore_delete _ _ false _ rfl

/-- C7: a settle call that passes validation and whose store calls succeed
removes exactly the cart entries whose identifier is a member of cartIds,
leaves every other entry in place, silently skips identifiers with no
matching entry, and answers 200 with the inserted document and the number of
entries actually removed. -/
theorem settle_removes_exactly_members (db : DB) (p : PaymentBody) (l : List String)
    (h : validCartIds p.cartIds = some l) (hv : l.all isValidObjectIdString = true) :
    (settle db false false p).snd.carts = db.carts.filter (fun e => !(l.contains e.id)) ∧
    (settle db false false p).snd.payments = db.payments ++ [p] ∧
    (settle db false false p).fst = .ok p (db.carts.countP (fun e => l.contains e.id)) := by
  simp [settle, h, hv, List.countP_eq_length_filter]

/-- Witness for C7: of two stored cart entries the call removes the one
referenced entry; the second referenced identifier matches nothing and is
skipped without error, so the reported count is 1. -/
theorem settle_removes_exactly_members_witness :
    (settle ⟨[], [], [⟨"aaaaaaaaaaaaaaaaaaaaaaaa", "u"⟩, ⟨"bbbbbbbbbbbbbbbbbbbbbbbb", "u"⟩],
          [], []⟩ false false
        ⟨"u", 5, .arr ["aaaaaaaaaaaaaaaaaaaaaaaa", "cccccccccccccccccccccccc"], ["m"]⟩).snd.carts
      = ([⟨"aaaaaaaaaaaaaaaaaaaaaaaa", "u"⟩, ⟨"bbbbbbbbbbbbbbbbbbbbbbbb", "u"⟩] :
          List CartEntry).filter
          (fun e => !((["aaaaaaaaaaaaaaaaaaaaaaaa", "cccccccccccccccccccccccc"] :
            List String).contains e.id)) ∧
    (settle ⟨[], [], [⟨"aaaaaaaaaaaaaaaaaaaaaaaa", "u"⟩, ⟨"bbbbbbbbbbbbbbbbbbbbbbbb", "u"⟩],
          [], []⟩ false false
        ⟨"u", 5, .arr ["aaaaaaaaaaaaaaaaaaaaaaaa", "cccccccccccccccccccccccc"], ["m"]⟩).snd.payments
      = [] ++ [⟨"u", 5, .arr ["aaaaaaaaaaaaaaaaaaaaaaaa", "cccccccccccccccccccccccc"], ["m"]⟩] ∧
    (settle ⟨[], [], [⟨"aaaaaaaaaaaaaaaaaaaaaaaa", "u"⟩, ⟨"bbbbbbbbbbbbbbbbbbbbbbbb", "u"⟩],
          [], []⟩ false false
        ⟨"u", 5, .arr ["aaaaaaaaaaaaaaaaaaaaaaaa", "cccccccccccccccccccccccc"], ["m"]⟩).fst
      = .ok ⟨"u", 5, .arr ["aaaaaaaaaaaaaaaaaaaaaaaa", "cccccccccccccccccccccccc"], ["m"]⟩
          (([⟨"aaaaaaaaaaaaaaaaaaaaaaaa", "u"⟩, ⟨"bbbbbbbbbbbbbbbbbbbbbbbb", "u"⟩] :
            List CartEntry).countP
            (fun e => (["aaaaaaaaaaaaaaaaaaaaaaaa", "cccccccccccccccccccccccc"] :
              List String).contains e.id)) :=
  settle_removes_exactly_members _ _ _ rfl (by decide)

/-- C8: settle is not idempotent. Running the same valid call twice appends
two independent payment documents to the store, and the second deletion pass
matches nothing, so its reported count is 0. -/
theorem settle_not_idempotent (db : DB) (p : PaymentBody) (l : List String)
    (h : validCartIds p.cartIds = some l) (hv : l.all isValidObjectIdString = true) :
    (settle (settle db false false p).snd false false p).snd.payments
        = db.payments ++ [p, p] ∧
    (settle (settle db false false p).snd false false p).fst = .ok p 0 := by
  simp [settle, h, hv, filter_members_of_filter_nonMembers]

/-- Witness for C8 on a database holding the one cart entry the call
references. -/
theorem settle_not_idempotent_witness :
    (settle (settle ⟨[], [], [⟨"aaaaaaaaaaaaaaaaaaaaaaaa", "u"⟩], [], []⟩ false false
          ⟨"u", 5, .arr ["aaaaaaaaaaaaaaaaaaaaaaaa"], ["m"]⟩).snd false false
        ⟨"u", 5, .arr ["aaaaaaaaaaaaaaaaaaaaaaaa"], ["m"]⟩).snd.payments
      = [] ++ [⟨"u", 5, .arr ["aaaaaaaaaaaaaaaaaaaaaaaa"], ["m"]⟩,
               ⟨"u", 5, .arr ["aaaaaaaaaaaaaaaaaaaaaaaa"], ["m"]⟩] ∧
    (settle (settle ⟨[], [], [⟨"aaaaaaaaaaaaaaaaaaaaaaaa", "u"⟩], [], []⟩ false false
          ⟨"u", 5, .arr ["aaaaaaaaaaaaaaaaaaaaaaaa"], ["m"]⟩).snd false false
        ⟨"u", 5, .arr ["aaaaaaaaaaaaaaaaaaaaaaaa"], ["m"]⟩).fst
      = .ok ⟨"u", 5, .arr ["aaaaaaaaaaaaaaaaaaaaaaaa"], ["m"]⟩ 0 :=
  settle_not_idempotent _ _ _ rfl (by decide)

/-- C9: when some element of a non-empty cartIds array is not a valid
ObjectId string, the handler inserts the payment document, then the ObjectId
conversion throws before any deletion, and the catch block answers 500: a
payment document is stored even though the call reports failure, and no cart
entry is deleted. -/
theorem settle_invalidObjectId_after_insert (db : DB) (p : PaymentBody) (l : List String)
    (h : validCartIds p.cartIds = some l) (hv : l.all isValidObjectIdString = false) :
    settle db false false p = (.serverError, { db with payments := db.payments ++ [p] }) ∧
    settleStatus (settle db false false p).fst = 500 := by
  simp [settle, h, hv, settleStatus]

/-- Witness for C9: the cartIds element x is not a 24-character hex string;
the payment is stored, the carts stay, and the response is 500. -/
theorem settle_invalidObjectId_after_insert_witness :
    settle ⟨[], [], [⟨"aaaaaaaaaaaaaaaaaaaaaaaa", "u"⟩], [], []⟩ false false
        ⟨"u", 5, .arr ["x"], ["m"]⟩
      = (.serverError,
         { (⟨[], [], [⟨"aaaaaaaaaaaaaaaaaaaaaaaa", "u"⟩], [], []⟩ : DB) with
             payments := [] ++ [⟨"u", 5, .arr ["x"], ["m"]⟩] }) ∧
    settleStatus (settle ⟨[], [], [⟨"aaaaaaaaaaaaaaaaaaaaaaaa", "u"⟩], [], []⟩ false false
        ⟨"u", 5, .arr ["x"], ["m"]⟩).fst = 500 :=
  settle_invalidObjectId_after_insert _ _ _ rfl (by decide)

/-- C10: the POST /payments route is registered with no verifyToken and no
verifyAdmin middleware, so its outcome is independent of the credential and
is never the 401 or 403 response, for any request body and any database; by
contrast GET /admin-stats answers 401 to a missing or invalid credential and
403 to a verified non-admin user. -/
theorem settle_has_no_auth_gate (db : DB) (a b : Option Credential) (iF dF : Bool)
    (p : PaymentBody) :
    settleRoute db a iF dF p = settleRoute db b iF dF p ∧
    settleStatus (settleRoute db a iF dF p).fst ≠ 401 ∧
    settleStatus (settleRoute db a iF dF p).fst ≠ 403 ∧
    adminStats db none = .unauthorized ∧
    adminStats db (some .invalid) = .unauthorized ∧
    adminStats ⟨[], [], [], [⟨"e", none⟩], []⟩ (some (.valid "e")) = .forbidden := by
  refine ⟨rfl, ?_, ?_, rfl, rfl, rfl⟩ <;>
    cases hr : (settleRoute db a iF dF p).fst <;> simp [settleStatus]

/-- Searching a list of strings for an element equal to c finds c itself
exactly when c is a member. -/
lemma find?_beq_self (c : String) (l : List String) :
    l.find? (fun x => x == c) = if c ∈ l then some c else none := by
  induction l with
  | nil => simp
  | cons a tl ih =>
    by_cases hac : a = c
    · subst hac
      rw [List.find?_cons_of_pos _ (by simp)]
      simp
    · rw [List.find?_cons_of_neg _ (by simp [hac]), ih]
      by_cases hc : c ∈ tl <;> simp [hc, hac, Ne.symm hac]

/-- The order-stats output contains a summary for category c exactly when
some surviving row carries that category, and that summary is the group
accumulator over the rows. -/
lemma orderStats_find? (db : DB) (c : String) :
    (orderStats db).find? (fun s => s.category == c)
      = if c ∈ (unwoundRows db).map (fun m => m.category)
        then some (mkSummary (unwoundRows db) c) else none := by
  unfold orderStats
  rw [List.find?_map]
  rw [show ((fun s : CategorySummary => s.category == c) ∘ mkSummary (unwoundRows db))
        = (fun x => x == c) from rfl]
  rw [find?_beq_self]
  by_cases hc : c ∈ (unwoundRows db).map (fun m => m.category)
  · rw [if_pos (List.mem_dedup.mpr hc), if_pos hc]
    rfl
  · rw [if_neg (fun h => hc (List.mem_dedup.mp h)), if_neg hc]
    rfl

/-- Rows of a category absent from the row list filter to nothing. -/
lemma filter_category_eq_nil (db : DB) (c : String)
    (hc : c ∉ (unwoundRows db).map (fun m => m.category)) :
    (unwoundRows db).filter (fun m => m.category == c) = [] := by
  apply List.filter_eq_nil_iff.mpr
  intro m hm
  simp only [beq_iff_eq]
  intro hEq
  exact hc (List.mem_map.mpr ⟨m, hm, hEq⟩)

/-- C4 amended: for every database state and category c, the breakdown
reports quantity equal to the number of surviving rows of category c and
revenue equal to the sum of the current prices over those rows (0 and 0 when
the category has no row), where the rows arise from each payment document as
the documents of the menu collection whose identifier is a member of its
reference list — each matching document once per payment document, so
repeated references inside one document are deduplicated by the join, and
references matching nothing are dropped. -/
theorem orderStats_characterization (db : DB) (c : String) :
    quantityOf (orderStats db) c
      = ((unwoundRows db).filter (fun m => m.category == c)).length ∧
    revenueOf (orderStats db) c
      = (((unwoundRows db).filter (fun m => m.category == c)).map (fun m => m.price)).sum ∧
    unwoundRows db
      = db.payments.flatMap (fun p => db.menu.filter (fun m => p.menuItems.contains m.id)) := by
  have hf := orderStats_find? db c
  by_cases hc : c ∈ (unwoundRows db).map (fun m => m.category)
  · rw [if_pos hc] at hf
    refine ⟨?_, ?_, rfl⟩
    · rw [quantityOf, hf]
      rfl
    · rw [revenueOf, hf]
      rfl
  · rw [if_neg hc] at hf
    rw [quantityOf, revenueOf, hf, filter_category_eq_nil db c hc]
    exact ⟨rfl, rfl, rfl⟩

/-- Database refuting the no-deduplication reading of C4: one catalog item of
category Salad and price 10, and one payment document referencing it
twice. -/
def dupRefDb : DB :=
  ⟨[], [⟨"a", "caesar", "Salad", 10⟩], [], [], [⟨"u", 10, .arr ["c"], ["a", "a"]⟩]⟩

/-- C4 counterexample: under the one-row-per-referenced-element reading the
Salad group of dupRefDb would have quantity 2 and revenue 20, but the
pipeline emits quantity 1 and revenue 10, because the lookup stage returns
the matching menu document once even though the payment references it
twice. -/
theorem orderStats_dedup_counterexample :
    specQuantity dupRefDb "Salad" = 2 ∧ specRevenue dupRefDb "Salad" = 20 ∧
    quantityOf (orderStats dupRefDb) "Salad" = 1 ∧
    revenueOf (orderStats dupRefDb) "Salad" = 10 ∧
    quantityOf (orderStats dupRefDb) "Salad" ≠ specQuantity dupRefDb "Salad" := by
  have hq1 : specQuantity dupRefDb "Salad" = 2 := by decide
  have hq2 : quantityOf (orderStats dupRefDb) "Salad" = 1 := by decide
  have hr1 : specRevenue dupRefDb "Salad" = 20 := by
    have h : specRows dupRefDb = [⟨"a", "caesar", "Salad", 10⟩, ⟨"a", "caesar", "Salad", 10⟩] := by
      decide
    rw [specRevenue, h]
    norm_num [List.filter, List.sum_cons, (by decide : ("Salad" == "Salad") = true)]
  have hr2 : revenueOf (orderStats dupRefDb) "Salad" = 10 := by
    have h1 : ((unwoundRows dupRefDb).map (fun m => m.category)).dedup = ["Salad"] := by decide
    have h2 : unwoundRows dupRefDb = [⟨"a", "caesar", "Salad", 10⟩] := by decide
    rw [revenueOf, orderStats, h1, h2]
    norm_num [mkSummary, List.find?, List.filter, (by decide : ("Salad" == "Salad") = true)]
  exact ⟨hq1, hr1, hq2, hr2, by rw [hq1, hq2]; decide⟩

/-- The C5 scenario state: the menu catalog of index.js (the collection named
menus, to which every menu route is bound) holds exactly items A and B, one
payment document references both, and the collection named menu — the one the
order-stats lookup actually reads, which no route of the server ever writes —
is empty. -/
def scenarioDb : DB :=
  ⟨[⟨"a", "caesar", "Salad", 10⟩, ⟨"b", "cake", "Dessert", 5⟩], [], [], [],
   [⟨"u", 15, .arr ["c"], ["a", "b"]⟩]⟩

/-- C5: in the scenario state the aggregation returns the empty list, not the
two category summaries, because its lookup joins the collection named menu
while the catalog lives in the collection named menus. The second conjunct
shows the slip: pointing the join at the catalog contents yields exactly the
two summaries the claim describes. -/
theorem orderStats_scenario_empty :
    orderStats scenarioDb = [] ∧
    orderStats { scenarioDb with menu := scenarioDb.menus }
      = [⟨"Salad", 1, 10⟩, ⟨"Dessert", 1, 5⟩] := by
  refine ⟨by decide, ?_⟩
  have h1 : ((unwoundRows { scenarioDb with menu := scenarioDb.menus }).map
      (fun m => m.category)).dedup = ["Salad", "Dessert"] := by decide
  have h2 : unwoundRows { scenarioDb with menu := scenarioDb.menus }
      = [⟨"a", "caesar", "Salad", 10⟩, ⟨"b", "cake", "Dessert", 5⟩] := by decide
  rw [orderStats, h1, h2]
  norm_num [mkSummary, List.filter,
    (by decide : ("Dessert" == "Salad") = false),
    (by decide : ("Salad" == "Dessert") = false),
    (by decide : ("Salad" == "Salad") = true),
    (by decide : ("Dessert" == "Dessert") = true)]

end BistroBoss
